import Mathlib

/-
Verification of PosturePal (shensquared/PosturePal).

Shallow embedding of the Python sources:
  - pose_webcam.py       : PostureCalibrator (calibration data, thresholds,
                           posture classification), load_config, run_normal_mode
                           (per-frame alert state machine)
  - config_manager.py    : DEFAULT_CONFIG, load_config
  - monitor_detector.py  : MonitorDetector.run watchdog loop

Python floats are modelled as rationals (ℚ); Python dicts with string keys
are modelled as association lists where insertion appends at the end,
matching dict insertion order.  Fallible external effects (file reads,
subprocess polling, camera reads, pose estimation, wall-clock time) are
modelled as explicit inputs.
-/

namespace PosturePal

/-! ## Python dict model (string-keyed, insertion ordered) -/

/-- Lookup of a key in an insertion-ordered dict, `d[k]` / `d.get(k)`. -/
def dictLookup {β : Type} (d : List (String × β)) (k : String) : Option β :=
  match d with
  | [] => none
  | p :: rest => if p.1 = k then some p.2 else dictLookup rest k

/-- Membership test `k in d`. -/

def dictHasKey {β : Type} (d : List (String × β)) (k : String) : Bool :=
  d.any (fun p => decide (p.1 = k))

/-- Assignment `d[k] = v`: updates in place if the key exists, else appends
(Python dicts preserve insertion order). -/

def dictSet {β : Type} (d : List (String × β)) (k : String) (v : β) :
    List (String × β) :=
  if dictHasKey d k then d.map (fun p => if p.1 = k then (k, v) else p)
  else d ++ [(k, v)]

/-- The merge loop `for key, value in defaults.items(): if key not in config:
config[key] = value` shared by both `load_config`s and by
`PostureCalibrator.load_calibration`. -/

def mergeDefaults {β : Type} (defaults loaded : List (String × β)) :
    List (String × β) :=
  defaults.foldl (fun acc kv => if dictHasKey acc kv.1 then acc else acc ++ [kv]) loaded

/-! ## PostureCalibrator (pose_webcam.py lines 225-338)

Landmarks are the MediaPipe pose landmarks used by the calibrator:
`LEFT_SHOULDER`, `RIGHT_SHOULDER`, `NOSE`, each a point with normalised
coordinates. -/

structure Landmark where
  x : ℚ
  y : ℚ
  deriving DecidableEq

structure Landmarks where
  left_shoulder : Landmark
  right_shoulder : Landmark
  nose : Landmark
  deriving DecidableEq

structure Measurements where
  head_height : ℚ
  nose_height_in_frame : ℚ
  deriving DecidableEq

/-- Embedding of `PostureCalibrator.calculate_measurements` (lines 270-286):
`head_height = (left_shoulder.y + right_shoulder.y)/2 - nose.y`,
`nose_height_in_frame = nose.y`. -/

def calculate_measurements (lm : Landmarks) : Measurements :=
  { head_height := (lm.left_shoulder.y + lm.right_shoulder.y) / 2 - lm.nose.y
  , nose_height_in_frame := lm.nose.y }

/-- One entry of `good_examples` / `bad_examples`:
`{'measurements': ..., 'timestamp': ...}`. -/

structure PostureExample where
  measurements : Measurements
  timestamp : ℚ
  deriving DecidableEq

/-- The mutable state of a `PostureCalibrator` instance. -/

structure CalibratorState where
  good_examples : List PostureExample
  bad_examples : List PostureExample
  personalized_thresholds : List (String × ℚ)
  deriving DecidableEq

/-- The defaults assigned in `PostureCalibrator.__init__`. -/

def defaultThresholds : List (String × ℚ) :=
  [("head_height_threshold", 1/10), ("nose_height_threshold", 7/10)]

/-- Model of `np.mean` over a list of floats. -/

def listMean (xs : List ℚ) : ℚ := xs.sum / xs.length

/-- Embedding of `PostureCalibrator.calculate_personalized_thresholds` (lines 303-329).
Returns the boolean result together with the updated calibrator state. -/

def calculate_personalized_thresholds (s : CalibratorState) :
    Bool × CalibratorState :=
  if s.good_examples.length < 3 ∨ s.bad_examples.length < 3 then (false, s)
  else
    let good_head_height := s.good_examples.map (fun ex => ex.measurements.head_height)
    let good_nose_height := s.good_examples.map (fun ex => ex.measurements.nose_height_in_frame)
    let bad_head_height := s.bad_examples.map (fun ex => ex.measurements.head_height)
    let bad_nose_height := s.bad_examples.map (fun ex => ex.measurements.nose_height_in_frame)
    let t1 := dictSet s.personalized_thresholds "head_height_threshold"
      ((listMean good_head_height + listMean bad_head_height) / 2)
    let t2 := dictSet t1 "nose_height_threshold"
      ((listMean good_nose_height + listMean bad_nose_height) / 2)
    (true, { s with personalized_thresholds := t2 })

/-- Embedding of `PostureCalibrator.is_bad_pose` (lines 331-338).  The two dict reads
raise `KeyError` when a threshold key is missing, modelled by `none`. -/

def is_bad_pose (s : CalibratorState) (lm : Landmarks) : Option Bool :=
  let m := calculate_measurements lm
  match dictLookup s.personalized_thresholds "head_height_threshold",
        dictLookup s.personalized_thresholds "nose_height_threshold" with
  | some hh, some nh =>
      some (decide (m.head_height < hh) || decide (m.nose_height_in_frame > nh))
  | _, _ => none

/-- The JSON value written by `save_calibration` (lines 256-268), keyed
`good_examples` / `bad_examples` / `thresholds`. -/

structure CalibrationFile where
  good_examples : List PostureExample
  bad_examples : List PostureExample
  thresholds : List (String × ℚ)
  deriving DecidableEq

def save_calibration (s : CalibratorState) : CalibrationFile :=
  { good_examples := s.good_examples
  , bad_examples := s.bad_examples
  , thresholds := s.personalized_thresholds }

/-- Embedding of `PostureCalibrator.load_calibration` (lines 236-254): `none` models a
missing or unreadable file (state untouched); otherwise the three fields are
read back and the current thresholds are merged in as defaults. -/

def load_calibration (s : CalibratorState) (file : Option CalibrationFile) :
    CalibratorState :=
  match file with
  | none => s
  | some data =>
      { good_examples := data.good_examples
      , bad_examples := data.bad_examples
      , personalized_thresholds :=
          mergeDefaults s.personalized_thresholds data.thresholds }

/-! ## Configuration loading (config_manager.py lines 12-37, pose_webcam.py
lines 14-66) -/

/-- JSON values as produced by `json.load`. -/
inductive Json where
  | null : Json
  | bool (b : Bool) : Json
  | num (q : ℚ) : Json
  | str (s : String) : Json
  | arr (elems : List Json) : Json
  | obj (fields : List (String × Json)) : Json

/-- The `DEFAULT_CONFIG` of config_manager.py (lines 13-20). -/

def CM_DEFAULT_CONFIG : List (String × Json) :=
  [("auto_start_enabled", Json.bool false),
   ("monitor_detection_enabled", Json.bool false),
   ("camera_index", Json.num 0),
   ("sitting_duration_threshold", Json.num 1200),
   ("bad_posture_duration_threshold", Json.num 60),
   ("announcement_interval", Json.num 5)]

/-- The `DEFAULT_CONFIG` of pose_webcam.py (lines 15-26). -/

def PW_DEFAULT_CONFIG : List (String × Json) :=
  [("auto_start_enabled", Json.bool false),
   ("monitor_detection_enabled", Json.bool false),
   ("alert_duration_seconds", Json.num 5),
   ("camera_index", Json.num 0),
   ("sitting_duration_threshold", Json.num 1800),
   ("bad_posture_duration_threshold", Json.num 60),
   ("announcement_interval", Json.num 5),
   ("camera_width", Json.num 640),
   ("camera_height", Json.num 480),
   ("processing_fps", Json.num 10)]

/-- Observable states of `config.json` as the two `load_config`s see it:
absent (`os.path.exists` false), unreadable (`open` raises), malformed
(`json.load` raises), or a parsed JSON object. -/

inductive ConfigFileState where
  | absent : ConfigFileState
  | unreadable : ConfigFileState
  | malformed : ConfigFileState
  | validObj (fields : List (String × Json)) : ConfigFileState

/-- The shared body of `load_config` (identical in both modules up to the
`DEFAULT_CONFIG` constant): absent file or any exception yields a copy of
the defaults; a parsed object is merged with the defaults. -/

def load_config (defaults : List (String × Json)) :
    ConfigFileState → List (String × Json)
  | ConfigFileState.absent => defaults
  | ConfigFileState.unreadable => defaults
  | ConfigFileState.malformed => defaults
  | ConfigFileState.validObj fields => mergeDefaults defaults fields

/-- Embedding of `config_manager.load_config`. -/

def cm_load_config (file : ConfigFileState) : List (String × Json) :=
  load_config CM_DEFAULT_CONFIG file

/-- Embedding of `pose_webcam.load_config`. -/

def pw_load_config (file : ConfigFileState) : List (String × Json) :=
  load_config PW_DEFAULT_CONFIG file

/-! ## Monitor watchdog (monitor_detector.py lines 76-155)

The posture-detection subprocess handle `self.posture_process` is either
absent (`None`), a handle whose `poll()` is `None` (alive), or a handle
whose `poll()` is not `None` (exited).  Each iteration of `MonitorDetector.run`
observes the monitor state (`obs`) and whether a previously alive process has
exited since the last poll (`crashed`). -/

inductive ProcState where
  | noProc : ProcState
  | alive : ProcState
  | exited : ProcState
  deriving DecidableEq

inductive WatchCmd where
  | start : WatchCmd
  | stop : WatchCmd
  deriving DecidableEq

structure WatchState where
  monitor_on : Bool
  proc : ProcState
  deriving DecidableEq

/-- Embedding of `MonitorDetector.start_posture_detection` (lines 76-98): no-op when the
process is already running, otherwise spawns it. -/

def start_posture_detection (p : ProcState) : ProcState × List WatchCmd :=
  match p with
  | ProcState.alive => (ProcState.alive, [])
  | _ => (ProcState.alive, [WatchCmd.start])

/-- Embedding of `MonitorDetector.stop_posture_detection` (lines 100-114): terminates a
running process; the handle remains, with `poll()` no longer `None`. -/

def stop_posture_detection (p : ProcState) : ProcState × List WatchCmd :=
  match p with
  | ProcState.alive => (ProcState.exited, [WatchCmd.stop])
  | q => (q, [])

/-- One iteration of the `while self.running` loop in `MonitorDetector.run`
(lines 128-155): compare the observed monitor state against `self.monitor_on`,
start/stop on a change, then poll the process and restart it if it exited
while the monitor is on, or drop the handle if the monitor is off. -/

def watchStep (st : WatchState) (obs crashed : Bool) : WatchState × List WatchCmd :=
  let p0 := if st.proc = ProcState.alive ∧ crashed then ProcState.exited else st.proc
  let r1 : ProcState × List WatchCmd × Bool :=
    if obs ≠ st.monitor_on then
      if obs then
        let r := start_posture_detection p0
        (r.1, r.2, true)
      else
        let r := stop_posture_detection p0
        (r.1, r.2, false)
    else (p0, [], st.monitor_on)
  let p1 := r1.1
  let c1 := r1.2.1
  let mon := r1.2.2
  let r2 : ProcState × List WatchCmd :=
    if p1 = ProcState.exited then
      if mon then start_posture_detection p1
      else (ProcState.noProc, [])
    else (p1, [])
  (⟨mon, r2.1⟩, c1 ++ r2.2)

/-! ## Frame-processing control flow in run_normal_mode (pose_webcam.py
lines 735-758) -/

/-- What one iteration of the `while cap.isOpened()` loop does before pose
estimation: break when `cap.read()` fails, skip the frame (sleep and
`continue`) when monitor detection is enabled and the user is idle, and
otherwise reach `pose.process`. -/
inductive IterAction where
  | breakLoop : IterAction
  | skipFrame : IterAction
  | processFrame : IterAction
  deriving DecidableEq

def iteration_action (monitor_detection_enabled ret user_active : Bool) :
    IterAction :=
  if !ret then IterAction.breakLoop
  else if monitor_detection_enabled && !user_active then IterAction.skipFrame
  else IterAction.processFrame

/-! ## The run_normal_mode alert state machine (pose_webcam.py lines 609-968)

One `Frame` is one iteration of the main loop on a successfully read camera
frame: its wall-clock time (`time.time()`), the result of `is_user_active()`,
and the pose landmarks returned by `pose.process` (`none` when
`results.pose_landmarks` is falsy).  The two calibrated thresholds read from
`calibrator.personalized_thresholds` are passed as `H` and `N`.  The unused
`bad_posture_frames` counter is not modelled. -/

structure Frame where
  time : ℚ
  user_active : Bool
  lm : Option Landmarks

/-- The configuration values `run_normal_mode` reads for alert timing. -/

structure NormalConfig where
  monitor_detection_enabled : Bool
  bad_posture_duration_threshold : ℚ
  announcement_interval : ℚ
  sitting_duration_threshold : ℚ

structure VoiceState where
  voice_busy : Bool
  last_voice_time : ℚ

/-- Embedding of `safe_speak` (lines 197-221): it skips when the voice is busy or less than
2 seconds passed since the last utterance; returns whether the message was
actually spoken.  (Within one single-threaded call `voice_busy` ends `False`.) -/

def safe_speak (t : ℚ) (v : VoiceState) : Bool × VoiceState :=
  if v.voice_busy = true ∨ t - v.last_voice_time < 2 then (false, v)
  else (true, ⟨false, t⟩)

inductive Alert where
  | sitUpStraight : Alert
  | standUp : Alert
  deriving DecidableEq

/-- The loop-carried alert state of `run_normal_mode` (lines 695-709). -/

structure NormalState where
  bad_posture_start_time : Option ℚ
  bad_posture_alerted : Bool
  last_announcement_time : ℚ
  sitting_start_time : Option ℚ
  sitting_alerted : Bool
  last_pose_time : Option ℚ
  voice : VoiceState

def initNormalState : NormalState :=
  ⟨none, false, 0, none, false, none, ⟨false, 0⟩⟩

/-- A frame is skipped (sleep + `continue`, lines 743-748) when monitor
detection is enabled and the user is idle. -/

def frameSkipped (cfg : NormalConfig) (f : Frame) : Bool :=
  cfg.monitor_detection_enabled && !f.user_active

/-- Whether `bad_reasons` is nonempty on this frame (lines 819-826): a pose
was detected and one of the two threshold comparisons fails. -/

def badPoseObserved (H N : ℚ) (f : Frame) : Bool :=
  match f.lm with
  | none => false
  | some lm =>
      decide ((calculate_measurements lm).head_height < H) ||
      decide ((calculate_measurements lm).nose_height_in_frame > N)

/-- Sitting-timer bookkeeping (lines 760-780).  Python truthiness of
`last_pose_time` (`None` and `0.0` are falsy) is modelled explicitly. -/

def updateSittingTimer (f : Frame) (st : NormalState) : NormalState :=
  match f.lm with
  | some _ =>
      { st with last_pose_time := some f.time,
                sitting_start_time :=
                  match st.sitting_start_time with
                  | none => some f.time
                  | some s => some s }
  | none =>
      match st.last_pose_time with
      | some lp =>
          if lp ≠ 0 ∧ f.time - lp > 3 then { st with sitting_start_time := none }
          else st
      | none => st

/-- Bad-posture detection and the two "Please sit up straight!" voice-alert
sites (lines 785-896): on a bad pose the run start time and announcement
timer are initialised if absent, then either the initial alert (elapsed at
least the threshold and no announcement yet) or a continuous re-announcement
fires; a good pose resets the run; a lost pose resets the run, the
announcement timer, and possibly the sitting alert. -/

def updateBadPosture (cfg : NormalConfig) (H N : ℚ) (f : Frame) (st : NormalState) :
    NormalState × List Alert :=
  match f.lm with
  | some lm =>
      if (calculate_measurements lm).head_height < H ∨
         (calculate_measurements lm).nose_height_in_frame > N then
        let sl : ℚ × ℚ :=
          match st.bad_posture_start_time with
          | none => (f.time, 0)
          | some s => (s, st.last_announcement_time)
        let stb : NormalState :=
          { st with bad_posture_start_time := some sl.1,
                    bad_posture_alerted :=
                      match st.bad_posture_start_time with
                      | none => false
                      | some _ => st.bad_posture_alerted,
                    last_announcement_time := sl.2 }
        if f.time - sl.1 ≥ cfg.bad_posture_duration_threshold ∧ sl.2 = 0 then
          let r := safe_speak f.time stb.voice
          ({ stb with voice := r.2, last_announcement_time := f.time },
           if r.1 then [Alert.sitUpStraight] else [])
        else if sl.2 > 0 ∧ f.time - sl.2 ≥ cfg.announcement_interval then
          let r := safe_speak f.time stb.voice
          ({ stb with voice := r.2, last_announcement_time := f.time },
           if r.1 then [Alert.sitUpStraight] else [])
        else (stb, [])
      else
        ({ st with bad_posture_start_time := none, bad_posture_alerted := false }, [])
  | none =>
      let st1 : NormalState :=
        { st with bad_posture_start_time := none, bad_posture_alerted := false,
                  last_announcement_time := 0 }
      ( match st.last_pose_time with
        | some lp =>
            if lp ≠ 0 ∧ f.time - lp > 30 then { st1 with sitting_alerted := false }
            else st1
        | none => st1
      , [] )

/-- The sitting-duration check and the "stand up" voice-alert site
(lines 898-912). -/

def updateSittingAlert (cfg : NormalConfig) (f : Frame) (st : NormalState) :
    NormalState × List Alert :=
  match st.sitting_start_time with
  | some ss =>
      if f.time - ss ≥ cfg.sitting_duration_threshold ∧ st.sitting_alerted = false then
        let r := safe_speak f.time st.voice
        ({ st with voice := r.2, sitting_alerted := true },
         if r.1 then [Alert.standUp] else [])
      else (st, [])
  | none => (st, [])

/-- One full iteration of the main loop on a successfully read frame,
returning the new state and the voice alerts actually uttered. -/

def stepNormal (cfg : NormalConfig) (H N : ℚ) (f : Frame) (st : NormalState) :
    NormalState × List Alert :=
  if frameSkipped cfg f then (st, [])
  else
    ((updateSittingAlert cfg f
        (updateBadPosture cfg H N f (updateSittingTimer f st)).1).1,
     (updateBadPosture cfg H N f (updateSittingTimer f st)).2 ++
       (updateSittingAlert cfg f
         (updateBadPosture cfg H N f (updateSittingTimer f st)).1).2)

/-- The state after processing the first `n` frames of the run. -/

def stateAt (cfg : NormalConfig) (H N : ℚ) (frames : List Frame) : ℕ → NormalState
  | 0 => initNormalState
  | n + 1 =>
      match frames.get? n with
      | some f => (stepNormal cfg H N f (stateAt cfg H N frames n)).1
      | none => stateAt cfg H N frames n

/-- All voice alerts uttered during the first `n` frames, tagged with the
frame time at which they were spoken. -/

def alertsAt (cfg : NormalConfig) (H N : ℚ) (frames : List Frame) :
    ℕ → List (ℚ × Alert)
  | 0 => []
  | n + 1 =>
      match frames.get? n with
      | some f =>
          alertsAt cfg H N frames n ++
            (stepNormal cfg H N f (stateAt cfg H N frames n)).2.map
              (fun a => (f.time, a))
      | none => alertsAt cfg H N frames n

/-- Wall-clock times along the trace are nondecreasing. -/

def MonoTimes (frames : List Frame) : Prop :=
  ∀ i j fi fj, i ≤ j → frames.get? i = some fi → frames.get? j = some fj →
    fi.time ≤ fj.time

/-- A "Please sit up straight!" alert at time `t` is justified: it is spoken
on some frame `i`, there is a frame `j ≤ i` on which the current bad-posture
run started, at least `bad_posture_duration_threshold` seconds lie between
them, and every processed frame in between was either skipped or showed bad
posture. -/

def SitUpJustified (cfg : NormalConfig) (H N : ℚ) (frames : List Frame)
    (t : ℚ) : Prop :=
  ∃ i j fi fj, frames.get? i = some fi ∧ frames.get? j = some fj ∧ j ≤ i ∧
    t = fi.time ∧ fi.time - fj.time ≥ cfg.bad_posture_duration_threshold ∧
    frameSkipped cfg fj = false ∧ badPoseObserved H N fj = true ∧
    (∀ k fk, j ≤ k → k ≤ i → frames.get? k = some fk →
      frameSkipped cfg fk = true ∨ badPoseObserved H N fk = true)

/-- A "stand up" alert at time `t` is justified: it is spoken on some frame
`i`, the current sitting session started on a pose-bearing frame `j ≤ i`, and
at least `sitting_duration_threshold` seconds of sitting have elapsed. -/

def StandUpJustified (cfg : NormalConfig) (frames : List Frame) (t : ℚ) : Prop :=
  ∃ i j fi fj, frames.get? i = some fi ∧ frames.get? j = some fj ∧ j ≤ i ∧
    t = fi.time ∧ fi.time - fj.time ≥ cfg.sitting_duration_threshold ∧
    frameSkipped cfg fj = false ∧ fj.lm ≠ none

/-- Invariant: a recorded bad-posture start time is the time of an earlier
non-skipped bad-posture frame, and every processed frame since then was
skipped or bad. -/

def BadRunInv (cfg : NormalConfig) (H N : ℚ) (frames : List Frame) (n : ℕ)
    (bst : Option ℚ) : Prop :=
  ∀ s, bst = some s →
    ∃ j fj, j < n ∧ frames.get? j = some fj ∧ fj.time = s ∧
      frameSkipped cfg fj = false ∧ badPoseObserved H N fj = true ∧
      (∀ k fk, j ≤ k → k < n → frames.get? k = some fk →
        frameSkipped cfg fk = true ∨ badPoseObserved H N fk = true)

/-- Invariant: a nonzero announcement timer during a bad-posture run records
the time of an earlier frame, at least the threshold after the run start. -/

def AnnInv (cfg : NormalConfig) (frames : List Frame) (n : ℕ)
    (bst : Option ℚ) (l : ℚ) : Prop :=
  ∀ s, bst = some s → l ≠ 0 →
    l - s ≥ cfg.bad_posture_duration_threshold ∧
    ∃ m fm, m < n ∧ frames.get? m = some fm ∧ fm.time = l

/-- Invariant: a recorded sitting start time is the time of an earlier
non-skipped pose-bearing frame. -/

def SitInv (cfg : NormalConfig) (frames : List Frame) (n : ℕ)
    (sst : Option ℚ) : Prop :=
  ∀ s, sst = some s →
    ∃ j fj, j < n ∧ frames.get? j = some fj ∧ fj.time = s ∧
      frameSkipped cfg fj = false ∧ fj.lm ≠ none

def wLm : Landmarks := ⟨⟨0, 1⟩, ⟨0, 1⟩, ⟨0, 1⟩⟩

def wCfg : NormalConfig := ⟨false, 1, 5, 100⟩

def wFrames : List Frame := [⟨10, true, some wLm⟩, ⟨12, true, some wLm⟩]

theorem dictHasKey_cons {β : Type} (p : String × β) (d : List (String × β)) (k : String) :
    dictHasKey (p :: d) k = (decide (p.1 = k) || dictHasKey d k) := by
  simp [dictHasKey, List.any_cons]

theorem dictHasKey_of_mem {β : Type} {d : List (String × β)} {p : String × β}
    (h : p ∈ d) : dictHasKey d p.1 = true := by
  simp only [dictHasKey, List.any_eq_true]
  exact ⟨p, h, by simp⟩

theorem dictHasKey_append {β : Type} (d d' : List (String × β)) (k : String) :
    dictHasKey (d ++ d') k = (dictHasKey d k || dictHasKey d' k) := by
  simp [dictHasKey, List.any_append]

theorem dictLookup_eq_none_of_not_hasKey {β : Type} {d : List (String × β)} {k : String}
    (h : dictHasKey d k = false) : dictLookup d k = none := by
  induction d with
  | nil => rfl
  | cons p rest ih =>
    rw [dictHasKey_cons] at h
    simp only [Bool.or_eq_false_iff, decide_eq_false_iff_not] at h
    simp [dictLookup, h.1, ih h.2]

theorem dictLookup_append {β : Type} (d d' : List (String × β)) (k : String) :
    dictLookup (d ++ d') k =
      match dictLookup d k with
      | some v => some v
      | none => dictLookup d' k := by
  induction d with
  | nil => rfl
  | cons p rest ih =>
    by_cases h : p.1 = k
    · simp [dictLookup, h]
    · simp [dictLookup, h, ih]

theorem dictLookup_append_left {β : Type} {d : List (String × β)} (d' : List (String × β))
    {k : String} {v : β} (h : dictLookup d k = some v) :
    dictLookup (d ++ d') k = some v := by
  rw [dictLookup_append, h]

theorem dictLookup_append_right {β : Type} {d : List (String × β)} (d' : List (String × β))
    {k : String} (h : dictHasKey d k = false) :
    dictLookup (d ++ d') k = dictLookup d' k := by
  rw [dictLookup_append, dictLookup_eq_none_of_not_hasKey h]

theorem dictLookup_map_replace {β : Type} (d : List (String × β)) {k k' : String} (v : β)
    (hne : k' ≠ k) :
    dictLookup (d.map fun p => if p.1 = k' then (k', v) else p) k = dictLookup d k := by
  induction d with
  | nil => rfl
  | cons p rest ih =>
    by_cases hp : p.1 = k'
    · simp only [List.map_cons, if_pos hp]
      have h1 : ¬ (k' = k) := hne
      have h2 : ¬ (p.1 = k) := by rw [hp]; exact hne
      simp [dictLookup, h1, h2, ih]
    · simp only [List.map_cons, if_neg hp]
      by_cases hk : p.1 = k
      · simp [dictLookup, hk]
      · simp [dictLookup, hk, ih]

theorem dictLookup_map_replace_self {β : Type} {d : List (String × β)} {k : String} (v : β)
    (h : dictHasKey d k = true) :
    dictLookup (d.map fun p => if p.1 = k then (k, v) else p) k = some v := by
  induction d with
  | nil => simp [dictHasKey] at h
  | cons p rest ih =>
    by_cases hp : p.1 = k
    · simp [dictLookup, hp]
    · have h' : dictHasKey rest k = true := by
        rw [dictHasKey_cons] at h
        simpa [hp] using h
      simp only [List.map_cons, if_neg hp]
      simpa [dictLookup, hp] using ih h'

theorem dictLookup_set_self {β : Type} (d : List (String × β)) (k : String) (v : β) :
    dictLookup (dictSet d k v) k = some v := by
  unfold dictSet
  by_cases h : dictHasKey d k
  · rw [if_pos h]
    exact dictLookup_map_replace_self v h
  · rw [if_neg h]
    rw [dictLookup_append_right _ (by simpa using h)]
    simp [dictLookup]

theorem dictLookup_set_ne {β : Type} (d : List (String × β)) {k k' : String} (v : β)
    (hne : k' ≠ k) : dictLookup (dictSet d k' v) k = dictLookup d k := by
  unfold dictSet
  by_cases h : dictHasKey d k'
  · rw [if_pos h]
    exact dictLookup_map_replace d v hne
  · rw [if_neg h]
    rw [dictLookup_append]
    cases hd : dictLookup d k with
    | some w => simp
    | none => simp [dictLookup, hne]

theorem dictHasKey_eq_isSome_lookup {β : Type} (d : List (String × β)) (k : String) :
    dictHasKey d k = (dictLookup d k).isSome := by
  induction d with
  | nil => rfl
  | cons p rest ih =>
    rw [dictHasKey_cons]
    by_cases hp : p.1 = k
    · simp [dictLookup, hp]
    · simp [dictLookup, hp, ih]

theorem mergeDefaults_nil {β : Type} (loaded : List (String × β)) :
    mergeDefaults [] loaded = loaded := rfl

theorem mergeDefaults_cons {β : Type} (p : String × β) (rest loaded : List (String × β)) :
    mergeDefaults (p :: rest) loaded =
      if dictHasKey loaded p.1 then mergeDefaults rest loaded
      else mergeDefaults rest (loaded ++ [p]) := by
  unfold mergeDefaults
  rw [List.foldl_cons]
  by_cases h : dictHasKey loaded p.1
  · rw [if_pos h, if_pos h]
  · rw [if_neg h, if_neg h]

/-- If every key of `defaults` is present in `loaded`, the merge loop is a no-op. -/

theorem mergeDefaults_of_hasKeys {β : Type} {defaults loaded : List (String × β)}
    (h : ∀ p ∈ defaults, dictHasKey loaded p.1 = true) :
    mergeDefaults defaults loaded = loaded := by
  induction defaults with
  | nil => rfl
  | cons p rest ih =>
    rw [mergeDefaults_cons, if_pos (h p (by simp))]
    exact ih (fun q hq => h q (List.mem_cons_of_mem _ hq))

/-- Keys already present in the accumulator keep their bindings through the merge loop. -/

theorem dictLookup_mergeDefaults_of_hasKey {β : Type} (defaults : List (String × β))
    {loaded : List (String × β)} {k : String} (h : dictHasKey loaded k = true) :
    dictLookup (mergeDefaults defaults loaded) k = dictLookup loaded k := by
  induction defaults generalizing loaded with
  | nil => rfl
  | cons p rest ih =>
    rw [mergeDefaults_cons]
    by_cases hp : dictHasKey loaded p.1
    · rw [if_pos hp]
      exact ih h
    · rw [if_neg hp]
      rw [ih (by rw [dictHasKey_append, h]; rfl)]
      obtain ⟨v, hv⟩ : ∃ v, dictLookup loaded k = some v := by
        rw [dictHasKey_eq_isSome_lookup] at h
        exact Option.isSome_iff_exists.mp h
      rw [hv]
      exact dictLookup_append_left _ hv

/-- Keys missing from the accumulator get the first binding from `defaults`. -/

theorem dictLookup_mergeDefaults_of_not_hasKey {β : Type} {defaults : List (String × β)}
    {loaded : List (String × β)} {k : String} (h : dictHasKey loaded k = false) :
    dictLookup (mergeDefaults defaults loaded) k = dictLookup defaults k := by
  induction defaults generalizing loaded with
  | nil =>
    rw [mergeDefaults_nil, dictLookup_eq_none_of_not_hasKey h]
    rfl
  | cons p rest ih =>
    rw [mergeDefaults_cons]
    by_cases hp : p.1 = k
    · have hload : ¬ dictHasKey loaded p.1 = true := by rw [hp]; simp [h]
      rw [if_neg hload]
      rw [dictLookup_mergeDefaults_of_hasKey rest
        (by simp [dictHasKey_append, dictHasKey_cons, hp])]
      rw [dictLookup_append_right _ h]
      simp [dictLookup, hp]
    · by_cases hload : dictHasKey loaded p.1
      · rw [if_pos hload, ih h]
        simp [dictLookup, hp]
      · rw [if_neg hload]
        rw [ih (by rw [dictHasKey_append, h, dictHasKey_cons]; simp [hp, dictHasKey])]
        simp [dictLookup, hp]

/-- Every key of `defaults` is present after the merge loop. -/

theorem dictHasKey_mergeDefaults {β : Type} {defaults : List (String × β)}
    (loaded : List (String × β)) {p : String × β} (hp : p ∈ defaults) :
    dictHasKey (mergeDefaults defaults loaded) p.1 = true := by
  rw [dictHasKey_eq_isSome_lookup]
  by_cases h : dictHasKey loaded p.1
  · rw [dictLookup_mergeDefaults_of_hasKey defaults h, ← dictHasKey_eq_isSome_lookup]
    exact h
  · rw [dictLookup_mergeDefaults_of_not_hasKey (by simpa using h),
      ← dictHasKey_eq_isSome_lookup]
    exact dictHasKey_of_mem hp


/-! ## Claims C1, C2, C7, C8 -/

/-- Claim C1: with at least 3 good and 3 bad examples,
`calculate_personalized_thresholds` returns `True` and sets
`head_height_threshold` (resp. `nose_height_threshold`) to the midpoint of
the mean good and mean bad `head_height` (resp. `nose_height_in_frame`)
values. -/
theorem C1_personalized_thresholds_midpoint (s : CalibratorState)
    (hg : 3 ≤ s.good_examples.length) (hb : 3 ≤ s.bad_examples.length) :
    (calculate_personalized_thresholds s).1 = true ∧
    dictLookup (calculate_personalized_thresholds s).2.personalized_thresholds
        "head_height_threshold" =
      some ((listMean (s.good_examples.map (fun ex => ex.measurements.head_height)) +
             listMean (s.bad_examples.map (fun ex => ex.measurements.head_height))) / 2) ∧
    dictLookup (calculate_personalized_thresholds s).2.personalized_thresholds
        "nose_height_threshold" =
      some ((listMean (s.good_examples.map (fun ex => ex.measurements.nose_height_in_frame)) +
             listMean (s.bad_examples.map (fun ex => ex.measurements.nose_height_in_frame))) / 2) := by
  have hcond : ¬ (s.good_examples.length < 3 ∨ s.bad_examples.length < 3) := by omega
  unfold calculate_personalized_thresholds
  rw [if_neg hcond]
  refine ⟨rfl, ?_, ?_⟩
  · rw [dictLookup_set_ne _ _ (by simp)]
    exact dictLookup_set_self _ _ _
  · exact dictLookup_set_self _ _ _

theorem C1_witness :
    3 ≤ ([⟨⟨1, 0⟩, 0⟩, ⟨⟨2, 0⟩, 1⟩, ⟨⟨3, 0⟩, 2⟩] : List PostureExample).length ∧
    (calculate_personalized_thresholds
        ⟨[⟨⟨1, 0⟩, 0⟩, ⟨⟨2, 0⟩, 1⟩, ⟨⟨3, 0⟩, 2⟩],
         [⟨⟨0, 1⟩, 3⟩, ⟨⟨0, 2⟩, 4⟩, ⟨⟨0, 3⟩, 5⟩], []⟩).1 = true ∧
    dictLookup (calculate_personalized_thresholds
        ⟨[⟨⟨1, 0⟩, 0⟩, ⟨⟨2, 0⟩, 1⟩, ⟨⟨3, 0⟩, 2⟩],
         [⟨⟨0, 1⟩, 3⟩, ⟨⟨0, 2⟩, 4⟩, ⟨⟨0, 3⟩, 5⟩], []⟩).2.personalized_thresholds
        "head_height_threshold" = some 1 := by
  refine ⟨by decide, ?_⟩
  have h := C1_personalized_thresholds_midpoint
    ⟨[⟨⟨1, 0⟩, 0⟩, ⟨⟨2, 0⟩, 1⟩, ⟨⟨3, 0⟩, 2⟩],
     [⟨⟨0, 1⟩, 3⟩, ⟨⟨0, 2⟩, 4⟩, ⟨⟨0, 3⟩, 5⟩], []⟩ (by decide) (by decide)
  refine ⟨h.1, ?_⟩
  rw [h.2.1]
  norm_num [listMean]

/-- Claim C2: `is_bad_pose` returns `True` exactly when
`(left_shoulder.y + right_shoulder.y)/2 - nose.y < head_height_threshold` or
`nose.y > nose_height_threshold`; classification is exactly these two scalar
comparisons. -/

theorem C2_is_bad_pose_iff (s : CalibratorState) (lm : Landmarks) (hh nh : ℚ)
    (hH : dictLookup s.personalized_thresholds "head_height_threshold" = some hh)
    (hN : dictLookup s.personalized_thresholds "nose_height_threshold" = some nh) :
    is_bad_pose s lm = some true ↔
      ((lm.left_shoulder.y + lm.right_shoulder.y) / 2 - lm.nose.y < hh ∨
       lm.nose.y > nh) := by
  unfold is_bad_pose
  rw [hH, hN]
  simp [calculate_measurements]

theorem C2_witness :
    dictLookup (defaultThresholds) "head_height_threshold" = some (1/10) ∧
    dictLookup (defaultThresholds) "nose_height_threshold" = some (7/10) ∧
    (is_bad_pose ⟨[], [], defaultThresholds⟩ ⟨⟨0, 1/2⟩, ⟨0, 1/2⟩, ⟨0, 9/10⟩⟩ = some true ↔
      ((1/2 + 1/2 : ℚ) / 2 - 9/10 < 1/10 ∨ (9/10 : ℚ) > 7/10)) := by
  refine ⟨by simp [defaultThresholds, dictLookup], by simp [defaultThresholds, dictLookup], ?_⟩
  exact C2_is_bad_pose_iff ⟨[], [], defaultThresholds⟩ ⟨⟨0, 1/2⟩, ⟨0, 1/2⟩, ⟨0, 9/10⟩⟩
    (1/10) (7/10) (by simp [defaultThresholds, dictLookup])
    (by simp [defaultThresholds, dictLookup])

/-- Claim C7: `save_calibration` followed by `load_calibration` on the same
file restores the full calibrator state (example lists and thresholds). -/

theorem C7_save_load_roundtrip (s : CalibratorState) :
    load_calibration s (some (save_calibration s)) = s := by
  unfold load_calibration save_calibration
  have hmerge : mergeDefaults s.personalized_thresholds s.personalized_thresholds =
      s.personalized_thresholds :=
    mergeDefaults_of_hasKeys (fun p hp => dictHasKey_of_mem hp)
  cases s
  simp_all

/-- Claim C8: with fewer than 3 good or fewer than 3 bad examples,
`calculate_personalized_thresholds` returns `False` and leaves the whole
state (thresholds and both example lists) unchanged. -/

theorem C8_calibration_failure_no_update (s : CalibratorState)
    (h : s.good_examples.length < 3 ∨ s.bad_examples.length < 3) :
    calculate_personalized_thresholds s = (false, s) := by
  unfold calculate_personalized_thresholds
  rw [if_pos h]

theorem C8_witness :
    (([] : List PostureExample).length < 3 ∨ ([] : List PostureExample).length < 3) ∧
    calculate_personalized_thresholds ⟨[], [], defaultThresholds⟩ =
      (false, ⟨[], [], defaultThresholds⟩) :=
  ⟨by decide, C8_calibration_failure_no_update ⟨[], [], defaultThresholds⟩ (by decide)⟩

/-! ## Claims C9, C10 -/

/-- Claim C9: for every config-file state, both `load_config`s return a dict
containing every key of that module's `DEFAULT_CONFIG`; on absence or on a
read/parse error they return exactly the defaults; on a parsed object they
preserve every key present in the file and fill every missing key with its
default. -/
theorem C9_load_config_total (file : ConfigFileState) :
    (∀ p ∈ CM_DEFAULT_CONFIG, dictHasKey (cm_load_config file) p.1 = true) ∧
    (∀ p ∈ PW_DEFAULT_CONFIG, dictHasKey (pw_load_config file) p.1 = true) ∧
    ((file = ConfigFileState.absent ∨ file = ConfigFileState.unreadable ∨
        file = ConfigFileState.malformed) →
      cm_load_config file = CM_DEFAULT_CONFIG ∧
      pw_load_config file = PW_DEFAULT_CONFIG) ∧
    (∀ fields, file = ConfigFileState.validObj fields →
      (∀ k, dictHasKey fields k = true →
        dictLookup (cm_load_config file) k = dictLookup fields k ∧
        dictLookup (pw_load_config file) k = dictLookup fields k) ∧
      (∀ k, dictHasKey fields k = false →
        dictLookup (cm_load_config file) k = dictLookup CM_DEFAULT_CONFIG k ∧
        dictLookup (pw_load_config file) k = dictLookup PW_DEFAULT_CONFIG k)) := by
  refine ⟨?_, ?_, ?_, ?_⟩
  · intro p hp
    cases file with
    | absent => exact dictHasKey_of_mem hp
    | unreadable => exact dictHasKey_of_mem hp
    | malformed => exact dictHasKey_of_mem hp
    | validObj fields =>
        show dictHasKey (mergeDefaults CM_DEFAULT_CONFIG fields) p.1 = true
        exact dictHasKey_mergeDefaults _ hp
  · intro p hp
    cases file with
    | absent => exact dictHasKey_of_mem hp
    | unreadable => exact dictHasKey_of_mem hp
    | malformed => exact dictHasKey_of_mem hp
    | validObj fields =>
        show dictHasKey (mergeDefaults PW_DEFAULT_CONFIG fields) p.1 = true
        exact dictHasKey_mergeDefaults _ hp
  · rintro (rfl | rfl | rfl) <;> exact ⟨rfl, rfl⟩
  · rintro fields rfl
    refine ⟨fun k hk => ⟨?_, ?_⟩, fun k hk => ⟨?_, ?_⟩⟩
    · exact dictLookup_mergeDefaults_of_hasKey _ hk
    · exact dictLookup_mergeDefaults_of_hasKey _ hk
    · exact dictLookup_mergeDefaults_of_not_hasKey hk
    · exact dictLookup_mergeDefaults_of_not_hasKey hk

theorem C9_witness :
    dictLookup (pw_load_config (ConfigFileState.validObj
        [("camera_index", Json.num 5)])) "camera_index" = some (Json.num 5) ∧
    dictLookup (cm_load_config (ConfigFileState.validObj
        [("camera_index", Json.num 5)])) "sitting_duration_threshold" =
      some (Json.num 1200) := by
  have h := C9_load_config_total
    (ConfigFileState.validObj [("camera_index", Json.num 5)])
  obtain ⟨-, -, -, hvalid⟩ := h
  obtain ⟨hpresent, hmissing⟩ := hvalid _ rfl
  constructor
  · rw [(hpresent "camera_index" (by simp [dictHasKey])).2]
    simp [dictLookup]
  · rw [(hmissing "sitting_duration_threshold" (by simp [dictHasKey])).1]
    simp [CM_DEFAULT_CONFIG, dictLookup]

/-- Claim C10: with no config file the two modules disagree on the default
sitting threshold: config_manager yields 1200 while pose_webcam yields 1800. -/

theorem C10_default_sitting_threshold_mismatch :
    dictLookup (cm_load_config ConfigFileState.absent)
        "sitting_duration_threshold" = some (Json.num 1200) ∧
    dictLookup (pw_load_config ConfigFileState.absent)
        "sitting_duration_threshold" = some (Json.num 1800) ∧
    dictLookup (cm_load_config ConfigFileState.absent)
        "sitting_duration_threshold" ≠
      dictLookup (pw_load_config ConfigFileState.absent)
        "sitting_duration_threshold" := by
  have h1 : dictLookup (cm_load_config ConfigFileState.absent)
      "sitting_duration_threshold" = some (Json.num 1200) := by
    simp [cm_load_config, load_config, CM_DEFAULT_CONFIG, dictLookup]
  have h2 : dictLookup (pw_load_config ConfigFileState.absent)
      "sitting_duration_threshold" = some (Json.num 1800) := by
    simp [pw_load_config, load_config, PW_DEFAULT_CONFIG, dictLookup]
  refine ⟨h1, h2, ?_⟩
  rw [h1, h2]
  intro h
  exact absurd (Json.num.inj (Option.some.inj h)) (by norm_num)

/-! ## Claims C4, C6 -/

/-- Claim C4: in each iteration, an on-to-off observation leaves the
posture-detection process not running (with a stop command issued whenever it
was running), an off-to-on observation starts it, and the invariant that the
process is running only if the monitor was last observed on is preserved. -/
theorem C4_watchdog_follows_monitor (st : WatchState) (obs crashed : Bool)
    (hinv : st.proc = ProcState.alive → st.monitor_on = true) :
    ((st.monitor_on = true ∧ obs = false) →
      (watchStep st obs crashed).1.proc ≠ ProcState.alive ∧
      (st.proc = ProcState.alive ∧ crashed = false →
        WatchCmd.stop ∈ (watchStep st obs crashed).2)) ∧
    ((st.monitor_on = false ∧ obs = true) →
      (watchStep st obs crashed).1.proc = ProcState.alive ∧
      WatchCmd.start ∈ (watchStep st obs crashed).2) ∧
    ((watchStep st obs crashed).1.proc = ProcState.alive →
      (watchStep st obs crashed).1.monitor_on = true) := by
  rcases st with ⟨m, p⟩
  revert hinv
  cases m <;> cases p <;> cases obs <;> cases crashed <;> decide

theorem C4_witness :
    ((WatchState.mk true ProcState.alive).proc = ProcState.alive →
      (WatchState.mk true ProcState.alive).monitor_on = true) ∧
    (((WatchState.mk true ProcState.alive).monitor_on = true ∧ false = false) →
      (watchStep (WatchState.mk true ProcState.alive) false false).1.proc ≠ ProcState.alive ∧
      ((WatchState.mk true ProcState.alive).proc = ProcState.alive ∧ false = false →
        WatchCmd.stop ∈ (watchStep (WatchState.mk true ProcState.alive) false false).2)) :=
  ⟨by decide,
   (C4_watchdog_follows_monitor (WatchState.mk true ProcState.alive) false false
     (by decide)).1⟩

/-- Claim C6 counterexample: when the posture-detection subprocess exits
unexpectedly while the monitor stays on, the watchdog iteration issues a
start command (a restart) — a recovery action beyond logging and
continuing. -/

theorem C6_counterexample :
    (watchStep (WatchState.mk true ProcState.alive) true true).2 = [WatchCmd.start] ∧
    (watchStep (WatchState.mk true ProcState.alive) true true).1.proc = ProcState.alive := by
  decide

/-- Claim C6 amended: on an unexpected subprocess exit with an unchanged
monitor observation, the watchdog restarts the process (issuing exactly one
start command) when the monitor is on; only when the monitor is off and the
process is already dead does it merely log, clear the handle, and continue
with no command. -/

theorem C6_amended_crash_handling (st : WatchState) (obs : Bool)
    (hobs : obs = st.monitor_on) :
    (st.proc = ProcState.alive → st.monitor_on = true →
      (watchStep st obs true).2 = [WatchCmd.start] ∧
      (watchStep st obs true).1.proc = ProcState.alive) ∧
    (st.proc = ProcState.exited → st.monitor_on = false →
      (watchStep st obs true).2 = [] ∧
      (watchStep st obs true).1.proc = ProcState.noProc) := by
  rcases st with ⟨m, p⟩
  revert hobs
  cases m <;> cases p <;> cases obs <;> decide

theorem C6_amended_witness :
    (true = (WatchState.mk true ProcState.alive).monitor_on) ∧
    ((WatchState.mk true ProcState.alive).proc = ProcState.alive →
      (WatchState.mk true ProcState.alive).monitor_on = true →
      (watchStep (WatchState.mk true ProcState.alive) true true).2 = [WatchCmd.start] ∧
      (watchStep (WatchState.mk true ProcState.alive) true true).1.proc = ProcState.alive) :=
  ⟨by decide,
   (C6_amended_crash_handling (WatchState.mk true ProcState.alive) true (by decide)).1⟩

/-! ## Claim C5 -/

/-- Claim C5 counterexample: with monitor detection enabled and the user
idle, a successfully read frame is skipped without invoking `pose.process`. -/
theorem C5_counterexample :
    iteration_action true true false = IterAction.skipFrame ∧
    iteration_action true true false ≠ IterAction.processFrame := by
  decide

/-- Claim C5 amended: on a successfully read frame, `pose.process` is invoked
if and only if it is not the case that monitor detection is enabled and the
user is idle. -/

theorem C5_amended_process_iff_active (monitor_detection_enabled user_active : Bool) :
    iteration_action monitor_detection_enabled true user_active =
        IterAction.processFrame ↔
      ¬ (monitor_detection_enabled = true ∧ user_active = false) := by
  cases monitor_detection_enabled <;> cases user_active <;> decide

theorem updateSittingTimer_bad_start (f : Frame) (st : NormalState) :
    (updateSittingTimer f st).bad_posture_start_time = st.bad_posture_start_time := by
  unfold updateSittingTimer
  cases f.lm with
  | some lm => rfl
  | none =>
    cases st.last_pose_time with
    | none => rfl
    | some lp =>
      dsimp only
      split <;> rfl

theorem updateSittingTimer_last_ann (f : Frame) (st : NormalState) :
    (updateSittingTimer f st).last_announcement_time = st.last_announcement_time := by
  unfold updateSittingTimer
  cases f.lm with
  | some lm => rfl
  | none =>
    cases st.last_pose_time with
    | none => rfl
    | some lp =>
      dsimp only
      split <;> rfl

theorem annInv_succ {cfg : NormalConfig} {frames : List Frame} {n : ℕ}
    {bst : Option ℚ} {l : ℚ} (h : AnnInv cfg frames n bst l) :
    AnnInv cfg frames (n + 1) bst l := by
  intro s hs hl
  obtain ⟨h1, m, fm, hm, hfm, ht⟩ := h s hs hl
  exact ⟨h1, m, fm, Nat.lt_succ_of_lt hm, hfm, ht⟩

theorem sitInv_succ {cfg : NormalConfig} {frames : List Frame} {n : ℕ}
    {sst : Option ℚ} (h : SitInv cfg frames n sst) :
    SitInv cfg frames (n + 1) sst := by
  intro s hs
  obtain ⟨j, fj, hj, hfj, ht, hsk, hlm⟩ := h s hs
  exact ⟨j, fj, Nat.lt_succ_of_lt hj, hfj, ht, hsk, hlm⟩

/-- Lemma: `BadRunInv` extends one step when frame `n` is out of range, skipped, or
itself a bad-posture frame. -/

theorem badRunInv_succ {cfg : NormalConfig} {H N : ℚ} {frames : List Frame}
    {n : ℕ} {bst : Option ℚ} (h : BadRunInv cfg H N frames n bst)
    (hn : ∀ fk, frames.get? n = some fk →
      frameSkipped cfg fk = true ∨ badPoseObserved H N fk = true) :
    BadRunInv cfg H N frames (n + 1) bst := by
  intro s hs
  obtain ⟨j, fj, hj, hfj, ht, hsk, hbad, hcont⟩ := h s hs
  refine ⟨j, fj, Nat.lt_succ_of_lt hj, hfj, ht, hsk, hbad, ?_⟩
  intro k fk hjk hk hfk
  rcases Nat.lt_succ_iff_lt_or_eq.mp hk with hk' | rfl
  · exact hcont k fk hjk hk' hfk
  · exact hn fk hfk

theorem sitInv_updateSittingTimer {cfg : NormalConfig} {frames : List Frame}
    {n : ℕ} {f : Frame} (st : NormalState) (hf : frames.get? n = some f)
    (hskip : frameSkipped cfg f = false)
    (hSit : SitInv cfg frames n st.sitting_start_time) :
    SitInv cfg frames (n + 1) (updateSittingTimer f st).sitting_start_time := by
  unfold updateSittingTimer
  cases hlm : f.lm with
  | some lm =>
    dsimp only
    cases hold : st.sitting_start_time with
    | none =>
      intro s hs
      obtain rfl : f.time = s := Option.some.inj hs
      exact ⟨n, f, Nat.lt_succ_self n, hf, rfl, hskip, by simp [hlm]⟩
    | some s0 =>
      intro s hs
      exact sitInv_succ hSit s (by rw [hold]; exact hs)
  | none =>
    cases hlp : st.last_pose_time with
    | none => exact sitInv_succ hSit
    | some lp =>
      dsimp only
      split
      · intro s hs
        exact absurd hs (by simp)
      · exact sitInv_succ hSit

theorem updateSittingAlert_fields (cfg : NormalConfig) (f : Frame) (st : NormalState) :
    (updateSittingAlert cfg f st).1.bad_posture_start_time = st.bad_posture_start_time ∧
    (updateSittingAlert cfg f st).1.last_announcement_time = st.last_announcement_time ∧
    (updateSittingAlert cfg f st).1.sitting_start_time = st.sitting_start_time := by
  obtain ⟨b1, b2, l, sst, sa, lp, v⟩ := st
  unfold updateSittingAlert
  cases sst with
  | none => exact ⟨rfl, rfl, rfl⟩
  | some ss =>
    dsimp only
    split <;> exact ⟨rfl, rfl, rfl⟩

theorem updateSittingAlert_alerts {cfg : NormalConfig} {frames : List Frame}
    {n : ℕ} {f : Frame} (st : NormalState) (hf : frames.get? n = some f)
    (hSit : SitInv cfg frames (n + 1) st.sitting_start_time) :
    ∀ a ∈ (updateSittingAlert cfg f st).2,
      a = Alert.standUp ∧ StandUpJustified cfg frames f.time := by
  unfold updateSittingAlert
  cases hss : st.sitting_start_time with
  | none => simp
  | some ss =>
    dsimp only
    split
    · next hg =>
      intro a ha
      have ha' : a = Alert.standUp := by
        rcases Bool.eq_false_or_eq_true (safe_speak f.time st.voice).1 with hr | hr <;>
          simp [hr] at ha
        exact ha
      refine ⟨ha', ?_⟩
      obtain ⟨j, fj, hj, hfj, ht, hsk, hlm⟩ := hSit ss hss
      exact ⟨n, j, f, fj, hf, hfj, Nat.lt_succ_iff.mp hj, rfl,
        by rw [ht]; exact hg.1, hsk, hlm⟩
    · simp

theorem mem_alert_singleton {b : Bool} {x a : Alert}
    (ha : a ∈ if b = true then [x] else []) : a = x := by
  cases b
  · simp at ha
  · simpa using ha

/-- Processing one non-skipped frame through the bad-posture logic preserves
the run and announcement invariants, leaves the sitting timer alone, and
only utters justified "sit up straight" alerts. -/

theorem updateBadPosture_inv (cfg : NormalConfig) (H N : ℚ) (frames : List Frame)
    (hmono : MonoTimes frames) (n : ℕ) (f : Frame) (hf : frames.get? n = some f)
    (hskip : frameSkipped cfg f = false) (st : NormalState)
    (hBad : BadRunInv cfg H N frames n st.bad_posture_start_time)
    (hAnn : AnnInv cfg frames n st.bad_posture_start_time st.last_announcement_time) :
    BadRunInv cfg H N frames (n + 1)
        (updateBadPosture cfg H N f st).1.bad_posture_start_time ∧
    AnnInv cfg frames (n + 1)
        (updateBadPosture cfg H N f st).1.bad_posture_start_time
        (updateBadPosture cfg H N f st).1.last_announcement_time ∧
    (updateBadPosture cfg H N f st).1.sitting_start_time = st.sitting_start_time ∧
    ∀ a ∈ (updateBadPosture cfg H N f st).2,
      a = Alert.sitUpStraight ∧ SitUpJustified cfg H N frames f.time := by
  obtain ⟨bst, ba, l, sst, sa, lpt, v⟩ := st
  unfold updateBadPosture
  cases hlm : f.lm with
  | none =>
    dsimp only
    cases lpt with
    | none =>
      exact ⟨fun s hs => absurd hs (by simp), fun s hs => absurd hs (by simp),
        rfl, by simp⟩
    | some lp =>
      dsimp only
      split <;>
        exact ⟨fun s hs => absurd hs (by simp), fun s hs => absurd hs (by simp),
          rfl, by simp⟩
  | some lm =>
    dsimp only
    by_cases hbad : (calculate_measurements lm).head_height < H ∨
        (calculate_measurements lm).nose_height_in_frame > N
    · rw [if_pos hbad]
      have hbadObs : badPoseObserved H N f = true := by
        unfold badPoseObserved
        rw [hlm]
        rcases hbad with h | h <;> simp [h]
      cases bst with
      | none =>
        dsimp only
        have hBad' : BadRunInv cfg H N frames (n + 1) (some f.time) := by
          intro s hs
          obtain rfl : f.time = s := Option.some.inj hs
          refine ⟨n, f, Nat.lt_succ_self n, hf, rfl, hskip, hbadObs, ?_⟩
          intro k fk hjk hk hfk
          have hkn : k = n := le_antisymm (Nat.lt_succ_iff.mp hk) hjk
          subst hkn
          rw [hf] at hfk
          obtain rfl := Option.some.inj hfk
          exact Or.inr hbadObs
        split
        · next hg1 =>
          refine ⟨fun s hs => hBad' s hs, ?_, rfl, ?_⟩
          · intro s hs hlne
            obtain rfl : f.time = s := Option.some.inj hs
            exact ⟨hg1.1, n, f, Nat.lt_succ_self n, hf, rfl⟩
          · intro a ha
            refine ⟨mem_alert_singleton ha, ?_⟩
            refine ⟨n, n, f, f, hf, hf, le_refl n, rfl, hg1.1, hskip, hbadObs, ?_⟩
            intro k fk hjk hk hfk
            have hkn : k = n := le_antisymm hk hjk
            subst hkn
            rw [hf] at hfk
            obtain rfl := Option.some.inj hfk
            exact Or.inr hbadObs
        · split
          · next hg2 => exact absurd hg2.1 (lt_irrefl 0)
          · refine ⟨fun s hs => hBad' s hs, ?_, rfl, by simp⟩
            intro s hs hlne
            exact absurd rfl hlne
      | some s0 =>
        dsimp only
        obtain ⟨j, fj, hjlt, hfj, htj, hskj, hbadj, hcont⟩ := hBad s0 rfl
        have hBad' : BadRunInv cfg H N frames (n + 1) (some s0) := by
          intro s hs
          obtain rfl : s0 = s := Option.some.inj hs
          refine ⟨j, fj, Nat.lt_succ_of_lt hjlt, hfj, htj, hskj, hbadj, ?_⟩
          intro k fk hjk hk hfk
          rcases Nat.lt_succ_iff_lt_or_eq.mp hk with hk' | rfl
          · exact hcont k fk hjk hk' hfk
          · rw [hf] at hfk
            obtain rfl := Option.some.inj hfk
            exact Or.inr hbadObs
        have hjust : f.time - s0 ≥ cfg.bad_posture_duration_threshold →
            SitUpJustified cfg H N frames f.time := by
          intro helapsed
          refine ⟨n, j, f, fj, hf, hfj, Nat.le_of_lt hjlt, rfl,
            by rw [htj]; exact helapsed, hskj, hbadj, ?_⟩
          intro k fk hjk hk hfk
          rcases Nat.lt_or_ge k n with hk' | hk''
          · exact hcont k fk hjk hk' hfk
          · have hkn : k = n := le_antisymm hk hk''
            subst hkn
            rw [hf] at hfk
            obtain rfl := Option.some.inj hfk
            exact Or.inr hbadObs
        split
        · next hg1 =>
          refine ⟨fun s hs => hBad' s hs, ?_, rfl, ?_⟩
          · intro s hs hlne
            obtain rfl : s0 = s := Option.some.inj hs
            exact ⟨hg1.1, n, f, Nat.lt_succ_self n, hf, rfl⟩
          · intro a ha
            exact ⟨mem_alert_singleton ha, hjust hg1.1⟩
        · split
          · next hg2 =>
            obtain ⟨hBPT, m, fm, hmlt, hfm, htm⟩ := hAnn s0 rfl (ne_of_gt hg2.1)
            have hmle : fm.time ≤ f.time :=
              hmono m n fm f (Nat.le_of_lt hmlt) hfm hf
            have helapsed : f.time - s0 ≥ cfg.bad_posture_duration_threshold := by
              rw [htm] at hmle
              linarith
            refine ⟨fun s hs => hBad' s hs, ?_, rfl, ?_⟩
            · intro s hs hlne
              obtain rfl : s0 = s := Option.some.inj hs
              exact ⟨helapsed, n, f, Nat.lt_succ_self n, hf, rfl⟩
            · intro a ha
              exact ⟨mem_alert_singleton ha, hjust helapsed⟩
          · refine ⟨fun s hs => hBad' s hs, ?_, rfl, by simp⟩
            intro s hs hlne
            obtain rfl : s0 = s := Option.some.inj hs
            obtain ⟨hBPT, m, fm, hmlt, hfm, htm⟩ := hAnn s0 rfl hlne
            exact ⟨hBPT, m, fm, Nat.lt_succ_of_lt hmlt, hfm, htm⟩
    · rw [if_neg hbad]
      exact ⟨fun s hs => absurd hs (by simp), fun s hs => absurd hs (by simp),
        rfl, by simp⟩

/-- One full loop iteration preserves all three invariants and only utters
justified alerts. -/

theorem stepNormal_inv (cfg : NormalConfig) (H N : ℚ) (frames : List Frame)
    (hmono : MonoTimes frames) (n : ℕ) (f : Frame) (hf : frames.get? n = some f)
    (st : NormalState)
    (hBad : BadRunInv cfg H N frames n st.bad_posture_start_time)
    (hAnn : AnnInv cfg frames n st.bad_posture_start_time st.last_announcement_time)
    (hSit : SitInv cfg frames n st.sitting_start_time) :
    BadRunInv cfg H N frames (n + 1)
        (stepNormal cfg H N f st).1.bad_posture_start_time ∧
    AnnInv cfg frames (n + 1)
        (stepNormal cfg H N f st).1.bad_posture_start_time
        (stepNormal cfg H N f st).1.last_announcement_time ∧
    SitInv cfg frames (n + 1) (stepNormal cfg H N f st).1.sitting_start_time ∧
    ∀ a ∈ (stepNormal cfg H N f st).2,
      (a = Alert.sitUpStraight → SitUpJustified cfg H N frames f.time) ∧
      (a = Alert.standUp → StandUpJustified cfg frames f.time) := by
  by_cases hskip : frameSkipped cfg f = true
  · unfold stepNormal
    rw [if_pos hskip]
    refine ⟨badRunInv_succ hBad ?_, annInv_succ hAnn, sitInv_succ hSit, by simp⟩
    intro fk hfk
    rw [hf] at hfk
    obtain rfl := Option.some.inj hfk
    exact Or.inl hskip
  · have hskip' : frameSkipped cfg f = false := by simpa using hskip
    unfold stepNormal
    rw [if_neg hskip]
    dsimp only
    have h1b := updateSittingTimer_bad_start f st
    have h1a := updateSittingTimer_last_ann f st
    have hSit1 := sitInv_updateSittingTimer st hf hskip' hSit
    have hBad1 : BadRunInv cfg H N frames n
        (updateSittingTimer f st).bad_posture_start_time := by
      rw [h1b]; exact hBad
    have hAnn1 : AnnInv cfg frames n
        (updateSittingTimer f st).bad_posture_start_time
        (updateSittingTimer f st).last_announcement_time := by
      rw [h1b, h1a]; exact hAnn
    obtain ⟨hBad2, hAnn2, hsit2, halerts2⟩ :=
      updateBadPosture_inv cfg H N frames hmono n f hf hskip'
        (updateSittingTimer f st) hBad1 hAnn1
    have hSit2 : SitInv cfg frames (n + 1)
        (updateBadPosture cfg H N f (updateSittingTimer f st)).1.sitting_start_time := by
      rw [hsit2]; exact hSit1
    obtain ⟨hub, hua, hus⟩ := updateSittingAlert_fields cfg f
      (updateBadPosture cfg H N f (updateSittingTimer f st)).1
    have halerts3 := updateSittingAlert_alerts
      (updateBadPosture cfg H N f (updateSittingTimer f st)).1 hf hSit2
    refine ⟨?_, ?_, ?_, ?_⟩
    · rw [hub]; exact hBad2
    · rw [hub, hua]; exact hAnn2
    · rw [hus]; exact hSit2
    · intro a ha
      rcases List.mem_append.mp ha with h2 | h3
      · obtain ⟨rfl, hj⟩ := halerts2 a h2
        exact ⟨fun _ => hj, fun hcontr => Alert.noConfusion hcontr⟩
      · obtain ⟨rfl, hj⟩ := halerts3 a h3
        exact ⟨fun hcontr => Alert.noConfusion hcontr, fun _ => hj⟩

/-- Main induction over the frame trace: the invariants hold at every prefix
and every uttered alert is justified. -/

theorem runNormal_inv (cfg : NormalConfig) (H N : ℚ) (frames : List Frame)
    (hmono : MonoTimes frames) : ∀ n : ℕ,
    BadRunInv cfg H N frames n
        (stateAt cfg H N frames n).bad_posture_start_time ∧
    AnnInv cfg frames n
        (stateAt cfg H N frames n).bad_posture_start_time
        (stateAt cfg H N frames n).last_announcement_time ∧
    SitInv cfg frames n (stateAt cfg H N frames n).sitting_start_time ∧
    ∀ p ∈ alertsAt cfg H N frames n,
      (p.2 = Alert.sitUpStraight → SitUpJustified cfg H N frames p.1) ∧
      (p.2 = Alert.standUp → StandUpJustified cfg frames p.1) := by
  intro n
  induction n with
  | zero =>
    refine ⟨fun s hs => absurd hs ?_, fun s hs => absurd hs ?_,
      fun s hs => absurd hs ?_, by simp [alertsAt]⟩ <;>
      simp [stateAt, initNormalState]
  | succ n ih =>
    obtain ⟨hBad, hAnn, hSit, hOut⟩ := ih
    cases hf : frames.get? n with
    | none =>
      have hf' : frames[n]? = none := by
        rw [← List.get?_eq_getElem?]
        exact hf
      have hstate : stateAt cfg H N frames (n + 1) = stateAt cfg H N frames n := by
        simp [stateAt, hf']
      have halerts : alertsAt cfg H N frames (n + 1) = alertsAt cfg H N frames n := by
        simp [alertsAt, hf']
      rw [hstate, halerts]
      refine ⟨badRunInv_succ hBad ?_, annInv_succ hAnn, sitInv_succ hSit, hOut⟩
      intro fk hfk
      rw [hf] at hfk
      cases hfk
    | some f =>
      have hf' : frames[n]? = some f := by
        rw [← List.get?_eq_getElem?]
        exact hf
      have hstate : stateAt cfg H N frames (n + 1) =
          (stepNormal cfg H N f (stateAt cfg H N frames n)).1 := by
        simp [stateAt, hf']
      have halerts : alertsAt cfg H N frames (n + 1) =
          alertsAt cfg H N frames n ++
            (stepNormal cfg H N f (stateAt cfg H N frames n)).2.map
              (fun a => (f.time, a)) := by
        simp [alertsAt, hf']
      obtain ⟨h1, h2, h3, h4⟩ := stepNormal_inv cfg H N frames hmono n f hf
        (stateAt cfg H N frames n) hBad hAnn hSit
      rw [hstate, halerts]
      refine ⟨h1, h2, h3, ?_⟩
      intro p hp
      rcases List.mem_append.mp hp with hold | hnew
      · exact hOut p hold
      · obtain ⟨a, haMem, rfl⟩ := List.mem_map.mp hnew
        obtain ⟨hA, hB⟩ := h4 a haMem
        exact ⟨fun h => hA h, fun h => hB h⟩

/-- Lemma: `MonoTimes` follows from pairwise-nondecreasing times. -/

theorem monoTimes_of_pairwise (frames : List Frame)
    (h : frames.Pairwise (fun a b => a.time ≤ b.time)) : MonoTimes frames := by
  intro i j fi fj hij hi hj
  rcases Nat.lt_or_ge i j with hlt | hge
  · obtain ⟨hiL, hie⟩ := List.get?_eq_some.mp hi
    obtain ⟨hjL, hje⟩ := List.get?_eq_some.mp hj
    have hp := List.pairwise_iff_get.mp h ⟨i, hiL⟩ ⟨j, hjL⟩ hlt
    rw [hie, hje] at hp
    exact hp
  · have hij' : i = j := le_antisymm hij hge
    subst hij'
    rw [hi] at hj
    obtain rfl := Option.some.inj hj
    exact le_refl _

/-! ## Claim C3 -/

/-- Claim C3: in normal mode no voice alert is uttered early.  Along any
trace with nondecreasing wall-clock times, every uttered
"Please sit up straight!" alert comes at least
`bad_posture_duration_threshold` seconds after the start of a bad-posture
run that was observed continuously bad (or skipped) since, and every uttered
"stand up" alert comes at least `sitting_duration_threshold` seconds after
the current sitting session began. -/

theorem C3_no_early_voice_alert (cfg : NormalConfig) (H N : ℚ)
    (frames : List Frame) (hmono : MonoTimes frames) (n : ℕ) :
    ∀ p ∈ alertsAt cfg H N frames n,
      (p.2 = Alert.sitUpStraight → SitUpJustified cfg H N frames p.1) ∧
      (p.2 = Alert.standUp → StandUpJustified cfg frames p.1) :=
  (runNormal_inv cfg H N frames hmono n).2.2.2

/-- A concrete two-frame trace on which the sit-up alert actually fires. -/

theorem C3_witness :
    ((12 : ℚ), Alert.sitUpStraight) ∈ alertsAt wCfg 1 2 wFrames 2 ∧
    SitUpJustified wCfg 1 2 wFrames 12 := by
  have hpw : wFrames.Pairwise (fun a b => a.time ≤ b.time) := by
    unfold wFrames
    refine List.Pairwise.cons ?_ (List.pairwise_singleton _ _)
    intro b hb
    rw [List.mem_singleton] at hb
    subst hb
    norm_num
  have hmono := monoTimes_of_pairwise wFrames hpw
  have hmem : ((12 : ℚ), Alert.sitUpStraight) ∈ alertsAt wCfg 1 2 wFrames 2 := by
    norm_num [alertsAt, stateAt, stepNormal, updateSittingTimer, updateBadPosture,
      updateSittingAlert, safe_speak, frameSkipped, calculate_measurements,
      initNormalState, wCfg, wFrames, wLm, List.get?]
  exact ⟨hmem, ((C3_no_early_voice_alert wCfg 1 2 wFrames hmono 2) _ hmem).1 rfl⟩

end PosturePal
